import Mathlib

/-!
Verification development for the zeke-core place tracking service
(app/services/place_service.py together with the data model in
app/models/place.py).

Modelling conventions:
* Timestamps are integers counting seconds (UTC).  Python's
  `datetime.weekday()` and `.hour` become `weekdayOf` and `hourOf`
  (the Unix epoch 1970-01-01 was a Thursday, weekday index 3).
* Python floats are modelled as exact rationals.
* The database session of `get_db_context` is modelled as an explicit
  state value `ServiceState` carrying the `places` and `place_visits`
  tables as lists.  SQLAlchemy runs with autoflush, so a query issued
  after attribute mutations observes those mutations; the embedding
  therefore lets each query read the already-updated lists.
* `LocationService.haversine_distance` lives in
  app/services/location_service.py, which is not part of the sources
  under review, and is transcendental; every function that needs it
  takes an abstract distance function `DistFn` as a parameter.
-/

/-- Python `datetime.utcfromtimestamp(t).hour` for a timestamp in seconds. -/
def hourOf (t : ℤ) : ℤ := (t.ediv 3600).emod 24

/-- Python `datetime.utcfromtimestamp(t).weekday()` (Monday = 0). -/
def weekdayOf (t : ℤ) : ℤ := (t.ediv 86400 + 3).emod 7

/-- Python `int(x)` truncates toward zero, so `int(seconds / 60)` on an exact
integer number of seconds is truncating division by 60. -/
def truncMinutes (seconds : ℤ) : ℤ := Int.tdiv seconds 60

/-- PlaceCategory enum from app/models/place.py (a `str` enum whose member
names coincide with their values). -/
inductive PlaceCategory where
  | home | work | school | gym | restaurant | shopping | medical | family | friend | other
deriving DecidableEq

/-- The `.value` of a PlaceCategory member (equal to its name). -/
def PlaceCategory.toValue : PlaceCategory → String
  | .home => "home"
  | .work => "work"
  | .school => "school"
  | .gym => "gym"
  | .restaurant => "restaurant"
  | .shopping => "shopping"
  | .medical => "medical"
  | .family => "family"
  | .friend => "friend"
  | .other => "other"

/-- Python `category in PlaceCategory.__members__` followed by
`PlaceCategory(category)`: look a member up by name.  Because the enum's
names equal its values, name lookup and value lookup agree. -/
def PlaceCategory.ofName? (s : String) : Option PlaceCategory :=
  if s == "home" then some .home
  else if s == "work" then some .work
  else if s == "school" then some .school
  else if s == "gym" then some .gym
  else if s == "restaurant" then some .restaurant
  else if s == "shopping" then some .shopping
  else if s == "medical" then some .medical
  else if s == "family" then some .family
  else if s == "friend" then some .friend
  else if s == "other" then some .other
  else none

/-- Row of the `places` table (PlaceDB in app/models/place.py). -/
structure PlaceDB where
  id : String
  uid : String
  name : String
  latitude : ℚ
  longitude : ℚ
  radius_meters : ℚ
  category : String
  address : Option String
  is_auto_detected : Bool
  is_confirmed : Bool
  visit_count : ℕ
  total_dwell_time_minutes : ℤ
  first_visited : Option ℤ
  last_visited : Option ℤ
  metadata_json : Option String
deriving DecidableEq

/-- Row of the `place_visits` table (PlaceVisitDB in app/models/place.py). -/
structure PlaceVisitDB where
  uid : String
  place_id : String
  entered_at : ℤ
  exited_at : Option ℤ
  dwell_minutes : Option ℤ
  day_of_week : ℤ
  is_routine : Bool
deriving DecidableEq

/-- The database state visible to PlaceService. -/
structure ServiceState where
  places : List PlaceDB
  visits : List PlaceVisitDB
deriving DecidableEq

/-- The closing mutation applied to an open visit row:
`exited_at = now` and
`dwell_minutes = int((now - entered_at).total_seconds() / 60)`. -/
def closeRow (now : ℤ) (v : PlaceVisitDB) : PlaceVisitDB :=
  { v with exited_at := some now, dwell_minutes := some (truncMinutes (now - v.entered_at)) }

/-- The loop body of record_visit (place_service.py lines 214-216): a visit
matching the open-visits query gets closed. -/
def closeIfOpen (uid : String) (now : ℤ) (v : PlaceVisitDB) : PlaceVisitDB :=
  if v.uid == uid && v.exited_at.isNone then closeRow now v else v

/-- record_visit lines 207-216: close every open visit of the owner. -/
def closeAllOpen (uid : String) (now : ℤ) (vs : List PlaceVisitDB) : List PlaceVisitDB :=
  vs.map (closeIfOpen uid now)

/-- _is_routine_visit (place_service.py lines 254-283). -/
def is_routine_visit (visits : List PlaceVisitDB) (uid place_id : String) (current_time : ℤ) : Bool :=
  let day_of_week := weekdayOf current_time
  let hour := hourOf current_time
  let two_weeks_ago := current_time - 14 * 86400
  let similar_visits := visits.filter (fun v =>
    v.uid == uid && v.place_id == place_id && v.day_of_week == day_of_week &&
      decide (two_weeks_ago ≤ v.entered_at))
  if similar_visits.length < 2 then false
  else similar_visits.any (fun v => decide (|hourOf v.entered_at - hour| ≤ 2))

/-- The fresh Visit row inserted by record_visit (place_service.py lines
230-239): entered now, open, with day_of_week = now.weekday() and the
routine flag computed against the given visits table. -/
def newVisit (uid place_id : String) (now : ℤ) (visits1 : List PlaceVisitDB) : PlaceVisitDB :=
  { uid := uid, place_id := place_id, entered_at := now, exited_at := none,
    dwell_minutes := none, day_of_week := weekdayOf now,
    is_routine := is_routine_visit visits1 uid place_id now }

/-- record_visit (place_service.py lines 194-252).  Returns the visit the
service would serialize, together with the updated state.  The
`existing_visit` query runs after the closing loop has been flushed, so it
reads the already-closed list. -/
def record_visit (uid place_id : String) (now : ℤ) (st : ServiceState) :
    Option PlaceVisitDB × ServiceState :=
  match st.places.find? (fun p => p.id == place_id) with
  | none => (none, st)
  | some place =>
    let visits1 := closeAllOpen uid now st.visits
    match visits1.find? (fun v => v.uid == uid && v.place_id == place_id && v.exited_at.isNone) with
    | some existing_visit => (some existing_visit, { st with visits := visits1 })
    | none =>
      let visit := newVisit uid place_id now visits1
      let place1 :=
        { place with
            visit_count := place.visit_count + 1,
            last_visited := some now,
            first_visited := if place.first_visited.isNone then some now else place.first_visited }
      (some visit,
        { places := st.places.map (fun p => if p.id == place_id then place1 else p),
          visits := visits1 ++ [visit] })

/-- end_visit's `.first()` query plus the mutation of the found row
(place_service.py lines 293-306): close the first open visit of the owner at
that place, returning the closed row. -/
def closeFirstOpen (uid place_id : String) (now : ℤ) :
    List PlaceVisitDB → Option PlaceVisitDB × List PlaceVisitDB
  | [] => (none, [])
  | v :: vs =>
    if v.uid == uid && v.place_id == place_id && v.exited_at.isNone then
      (some (closeRow now v), closeRow now v :: vs)
    else
      ((closeFirstOpen uid place_id now vs).1, v :: (closeFirstOpen uid place_id now vs).2)

/-- end_visit (place_service.py lines 285-317). -/
def end_visit (uid place_id : String) (now : ℤ) (st : ServiceState) :
    Option PlaceVisitDB × ServiceState :=
  let r := closeFirstOpen uid place_id now st.visits
  match r.1 with
  | none => (none, st)
  | some visit =>
    let dwell := visit.dwell_minutes.getD 0
    let places1 := st.places.map (fun p =>
      if p.id == place_id then { p with total_dwell_time_minutes := p.total_dwell_time_minutes + dwell } else p)
    (some visit, { places := places1, visits := r.2 })

/-- The open-visit test used by the invariant: `exited_at IS NULL` for the
owner. -/
def openPred (owner : String) (v : PlaceVisitDB) : Bool :=
  v.uid == owner && v.exited_at.isNone

/-- All open visits of an owner in a state. -/
def openVisitsFor (owner : String) (st : ServiceState) : List PlaceVisitDB :=
  st.visits.filter (openPred owner)

/-- An entry or exit signal processed by the service. -/
inductive SignalOp where
  | record (uid place_id : String) (now : ℤ)
  | finish (uid place_id : String) (now : ℤ)

/-- State transition of one signal. -/
def applyOp (st : ServiceState) : SignalOp → ServiceState
  | .record uid place_id now => (record_visit uid place_id now st).2
  | .finish uid place_id now => (end_visit uid place_id now st).2

/-- State after a sequence of entry/exit signals. -/
def applyOps (st : ServiceState) (ops : List SignalOp) : ServiceState :=
  ops.foldl applyOp st

/-- Partial update payload (PlaceUpdate in app/models/place.py).  Pydantic's
`model_dump(exclude_unset=True)` distinguishes an omitted field from one
explicitly supplied as None, so each field is `none` (omitted),
`some none` (supplied as None) or `some (some v)` (supplied with a value). -/
structure PlaceUpdate where
  name : Option (Option String) := none
  latitude : Option (Option ℚ) := none
  longitude : Option (Option ℚ) := none
  radius_meters : Option (Option ℚ) := none
  category : Option (Option PlaceCategory) := none
  address : Option (Option String) := none
  is_confirmed : Option (Option Bool) := none
  metadata_json : Option (Option String) := none
deriving DecidableEq

/-- update_place (place_service.py lines 87-107): iterate the dumped fields
and `setattr` only those whose value is not None, converting a PlaceCategory
value to its string. -/
def update_place (place_id : String) (updates : PlaceUpdate) (st : ServiceState) :
    Option PlaceDB × ServiceState :=
  match st.places.find? (fun p => p.id == place_id) with
  | none => (none, st)
  | some place =>
    let place1 : PlaceDB :=
      { place with
          name := match updates.name with | some (some v) => v | _ => place.name,
          latitude := match updates.latitude with | some (some v) => v | _ => place.latitude,
          longitude := match updates.longitude with | some (some v) => v | _ => place.longitude,
          radius_meters := match updates.radius_meters with | some (some v) => v | _ => place.radius_meters,
          category := match updates.category with | some (some v) => v.toValue | _ => place.category,
          address := match updates.address with | some (some v) => some v | _ => place.address,
          is_confirmed := match updates.is_confirmed with | some (some v) => v | _ => place.is_confirmed,
          metadata_json := match updates.metadata_json with | some (some v) => some v | _ => place.metadata_json }
    (some place1,
      { st with places := st.places.map (fun p => if p.id == place_id then place1 else p) })

/-- create_place (place_service.py lines 57-85).  The UUID primary key is
generated by the persistence layer, so it is passed in. -/
def create_place (id uid name : String) (latitude longitude radius_meters : ℚ)
    (category : PlaceCategory) (address : Option String) (is_auto_detected : Bool)
    (metadata_json : Option String) (st : ServiceState) : PlaceDB × ServiceState :=
  let place : PlaceDB :=
    { id := id, uid := uid, name := name, latitude := latitude, longitude := longitude,
      radius_meters := radius_meters, category := category.toValue, address := address,
      is_auto_detected := is_auto_detected, is_confirmed := false, visit_count := 0,
      total_dwell_time_minutes := 0, first_visited := none, last_visited := none,
      metadata_json := metadata_json }
  (place, { st with places := st.places ++ [place] })

/-- confirm_discovered_place (place_service.py lines 655-672). -/
def confirm_discovered_place (id uid : String) (latitude longitude : ℚ) (name : String)
    (category : String) (st : ServiceState) : PlaceDB × ServiceState :=
  create_place id uid name latitude longitude 100
    (match PlaceCategory.ofName? category with | some c => c | none => PlaceCategory.other)
    none true none st

/-- Round-half-to-even on rationals, the semantics of Python's builtin
`round` on exactly representable values. -/
def roundHalfEven (q : ℚ) : ℤ :=
  if q - ⌊q⌋ < 1 / 2 then ⌊q⌋
  else if 1 / 2 < q - ⌊q⌋ then ⌊q⌋ + 1
  else if Even ⌊q⌋ then ⌊q⌋ else ⌊q⌋ + 1

/-- Python `round(x, 2)`. -/
def round2 (q : ℚ) : ℚ := (roundHalfEven (q * 100) : ℚ) / 100

/-- Python `round(x, 6)`. -/
def round6 (q : ℚ) : ℚ := (roundHalfEven (q * 1000000) : ℚ) / 1000000

/-- Day names table of get_routines (place_service.py line 717), indexed by
`day_of_week`; the lookup is total here, returning "" off the 0-6 range. -/
def dayNameOf (d : ℤ) : String :=
  (["Monday", "Tuesday", "Wednesday", "Thursday", "Friday", "Saturday", "Sunday"].get? d.toNat).getD ""

/-- One record emitted by get_routines (place_service.py lines 726-736).
The purely presentational `time_display` and `description` strings are not
modelled. -/
structure Routine where
  place_id : String
  place_name : String
  day : String
  day_number : ℤ
  hour : ℤ
  occurrence_count : ℕ
  confidence : ℚ
deriving DecidableEq

/-- `routines.sort(key=lambda x: (x["confidence"], x["occurrence_count"]), reverse=True)`
(place_service.py line 738): descending lexicographic order on the key. -/
def sortRoutines (l : List Routine) : List Routine :=
  l.insertionSort (fun a b =>
    b.confidence < a.confidence ∨ (b.confidence = a.confidence ∧ b.occurrence_count ≤ a.occurrence_count))

/-- get_routines (place_service.py lines 674-739).  The `(place, day, hour)`
cells are materialized in first-encounter order; a cell with
`count >= 2` met while `weeks = days_back // 7` is zero makes the Python code
raise ZeroDivisionError, modelled as `none`. -/
def get_routines (st : ServiceState) (uid : String) (days_back : ℕ) (now : ℤ) :
    Option (List Routine) :=
  let cutoff := now - (days_back : ℤ) * 86400
  let joined := st.visits.filterMap (fun v =>
    if v.uid == uid && decide (cutoff ≤ v.entered_at) then
      (st.places.find? (fun p => p.id == v.place_id)).map (fun p => (v, p))
    else none)
  let key := fun (vp : PlaceVisitDB × PlaceDB) => (vp.2.id, vp.1.day_of_week, hourOf vp.1.entered_at)
  let triples := (joined.map key).eraseDups
  let cells := triples.map (fun t => (t, (joined.filter (fun vp => key vp == t)).length))
  let eligible := cells.filter (fun c => 2 ≤ c.2)
  let weeks := days_back / 7
  if weeks = 0 ∧ eligible ≠ [] then none
  else
    some (sortRoutines (eligible.map (fun c =>
      let confidence : ℚ := min ((c.2 : ℚ) / (weeks : ℚ)) 1
      { place_id := c.1.1,
        place_name := ((st.places.find? (fun p => p.id == c.1.1)).map PlaceDB.name).getD "",
        day := dayNameOf c.1.2.1,
        day_number := c.1.2.1,
        hour := c.1.2.2,
        occurrence_count := c.2,
        confidence := round2 confidence })))

/-- Abstract great-circle distance in meters between two (lat, lon) pairs.
Modelled from the spec: `LocationService.haversine_distance` (times 1000,
cf. `_haversine_distance_meters`) lives outside the reviewed sources and is
transcendental, so the discovery pipeline is parameterized by it. -/
abbrev DistFn := ℚ → ℚ → ℚ → ℚ → ℚ

/-- A raw GPS fix (LocationDB row) as read by discover_frequent_locations. -/
structure LocationFix where
  latitude : ℚ
  longitude : ℚ
  timestamp : ℤ
  speed : ℚ
deriving DecidableEq

/-- An in-progress dwell session of discover_frequent_locations
(place_service.py lines 550-554). -/
structure DwellSession where
  points : List (ℚ × ℚ)
  start_time : ℤ
  end_time : ℤ
deriving DecidableEq

/-- Mean latitude of a point list (`sum(p[0] ...) / len(...)`). -/
def centroidLat (pts : List (ℚ × ℚ)) : ℚ := (pts.map Prod.fst).sum / pts.length

/-- Mean longitude of a point list. -/
def centroidLon (pts : List (ℚ × ℚ)) : ℚ := (pts.map Prod.snd).sum / pts.length

/-- place_service.py lines 531-539: the fix is inside some existing place's
geofence. -/
def nearExistingPlace (d : DistFn) (places : List PlaceDB) (loc : LocationFix) : Bool :=
  places.any (fun p => decide (d loc.latitude loc.longitude p.latitude p.longitude ≤ p.radius_meters))

def session_gap_minutes : ℚ := 30

def session_gap_meters : ℚ := 500

/-- Loop body of the dwell-segmentation pass of discover_frequent_locations
(place_service.py lines 529-573), acting on the pair
(closed sessions so far, current session). -/
def dwellStep (d : DistFn) (places : List PlaceDB)
    (acc : List DwellSession × Option DwellSession) (loc : LocationFix) :
    List DwellSession × Option DwellSession :=
  if nearExistingPlace d places loc then
    match acc.2 with
    | some s => (acc.1 ++ [s], none)
    | none => (acc.1, none)
  else
    match acc.2 with
    | none => (acc.1, some { points := [(loc.latitude, loc.longitude)],
                             start_time := loc.timestamp, end_time := loc.timestamp })
    | some s =>
      let time_gap : ℚ := ((loc.timestamp - s.end_time : ℤ) : ℚ) / 60
      let avg_lat := centroidLat s.points
      let avg_lon := centroidLon s.points
      let dist := d loc.latitude loc.longitude avg_lat avg_lon
      if time_gap > session_gap_minutes ∨ dist > session_gap_meters then
        (acc.1 ++ [s], some { points := [(loc.latitude, loc.longitude)],
                              start_time := loc.timestamp, end_time := loc.timestamp })
      else
        (acc.1, some { s with points := s.points ++ [(loc.latitude, loc.longitude)],
                              end_time := loc.timestamp })

/-- The dwell-segmentation pass of discover_frequent_locations
(place_service.py lines 522-577), including the final flush of the
in-progress session. -/
def dwellSegment (d : DistFn) (places : List PlaceDB) (locations : List LocationFix) :
    List DwellSession :=
  let r := locations.foldl (dwellStep d places) ([], none)
  r.1 ++ r.2.toList

/-- _suggest_category_from_times (place_service.py lines 640-653). -/
def suggest_category_from_times (hours : List ℤ) : String :=
  let avg_hour : ℚ := if hours = [] then 12 else ((hours.map (fun h => (h : ℚ))).sum) / hours.length
  if 6 ≤ avg_hour ∧ avg_hour ≤ 10 then "work"
  else if 11 ≤ avg_hour ∧ avg_hour ≤ 14 then "restaurant"
  else if 9 ≤ avg_hour ∧ avg_hour ≤ 17 then "work"
  else if 17 ≤ avg_hour ∧ avg_hour ≤ 21 then "restaurant"
  else "home"

/-- Centroid of a session, as recomputed throughout the clustering pass. -/
def sessionCentroid (s : DwellSession) : ℚ × ℚ := (centroidLat s.points, centroidLon s.points)

/-- One suggestion dict produced by discover_frequent_locations
(place_service.py lines 628-635); `first_seen`/`last_seen` keep the raw
timestamps rather than their isoformat strings. -/
structure PlaceSuggestion where
  latitude : ℚ
  longitude : ℚ
  visit_count : ℕ
  suggested_category : String
  first_seen : ℤ
  last_seen : ℤ
deriving DecidableEq

/-- Minimum of the member start times (`min(s["start_time"] ...)`). -/
def minStart (ss : List DwellSession) : ℤ :=
  match ss.map DwellSession.start_time with
  | [] => 0
  | t :: ts => ts.foldl min t

/-- Maximum of the member end times (`max(s["end_time"] ...)`). -/
def maxEnd (ss : List DwellSession) : ℤ :=
  match ss.map DwellSession.end_time with
  | [] => 0
  | t :: ts => ts.foldl max t

/-- Inner loop of the clustering pass (place_service.py lines 599-610): scan
the enumerated sessions, skip used indices, and absorb every session whose
centroid lies within `cluster_radius_meters` of the seed centroid, marking it
used. -/
def gatherCluster (d : DistFn) (cluster_radius_meters : ℚ) (seed : ℚ × ℚ) :
    List (ℕ × DwellSession) → List ℕ → List DwellSession × List ℕ
  | [], used => ([], used)
  | (j, other) :: rest, used =>
    if j ∈ used then gatherCluster d cluster_radius_meters seed rest used
    else
      let oc := sessionCentroid other
      if d seed.1 seed.2 oc.1 oc.2 ≤ cluster_radius_meters then
        let r := gatherCluster d cluster_radius_meters seed rest (used ++ [j])
        (other :: r.1, r.2)
      else gatherCluster d cluster_radius_meters seed rest used

/-- Outer loop body of the clustering pass (place_service.py lines 586-635),
acting on (used indices, clusters built so far). -/
def clusterStep (d : DistFn) (cluster_radius_meters : ℚ) (min_visits : ℕ)
    (sessionsIdx : List (ℕ × DwellSession))
    (st : List ℕ × List PlaceSuggestion) (is : ℕ × DwellSession) :
    List ℕ × List PlaceSuggestion :=
  if is.1 ∈ st.1 then st
  else
    let seed := sessionCentroid is.2
    let r := gatherCluster d cluster_radius_meters seed sessionsIdx (st.1 ++ [is.1])
    let cluster_sessions := is.2 :: r.1
    let cluster_hours := cluster_sessions.map (fun s => hourOf s.start_time)
    let visit_count := cluster_sessions.length
    if min_visits ≤ visit_count then
      let all_centroids := cluster_sessions.map sessionCentroid
      let avg_lat := (all_centroids.map Prod.fst).sum / all_centroids.length
      let avg_lon := (all_centroids.map Prod.snd).sum / all_centroids.length
      (r.2, st.2 ++ [{ latitude := round6 avg_lat, longitude := round6 avg_lon,
                       visit_count := visit_count,
                       suggested_category := suggest_category_from_times cluster_hours,
                       first_seen := minStart cluster_sessions,
                       last_seen := maxEnd cluster_sessions }])
    else (r.2, st.2)

/-- `clusters.sort(key=lambda x: x["visit_count"], reverse=True)`. -/
def sortClusters (l : List PlaceSuggestion) : List PlaceSuggestion :=
  l.insertionSort (fun a b => b.visit_count ≤ a.visit_count)

/-- The clustering pass of discover_frequent_locations (place_service.py
lines 582-638): greedy star-shaped clustering, the min_visits filter, the
sort by visit_count descending and the top-10 cut. -/
def clusterPass (d : DistFn) (cluster_radius_meters : ℚ) (min_visits : ℕ)
    (dwell_sessions : List DwellSession) : List PlaceSuggestion :=
  let r := dwell_sessions.enum.foldl
    (clusterStep d cluster_radius_meters min_visits dwell_sessions.enum) ([], [])
  (sortClusters r.2).take 10

/-- discover_frequent_locations (place_service.py lines 493-638): the speed
and lookback filters of the fix query, then segmentation, then clustering.
The fix list is assumed already ordered by timestamp, as the query orders it. -/
def discover_frequent_locations (d : DistFn) (st : ServiceState) (uid : String)
    (locations : List LocationFix) (min_visits : ℕ) (cluster_radius_meters : ℚ)
    (days_back : ℕ) (now : ℤ) : List PlaceSuggestion :=
  let cutoff := now - (days_back : ℤ) * 86400
  let locs := locations.filter (fun l => decide (cutoff ≤ l.timestamp) && decide (l.speed < 2))
  let existing_places := st.places.filter (fun p => p.uid == uid)
  clusterPass d cluster_radius_meters min_visits (dwellSegment d existing_places locs)

/-- Modelled from the spec: the claim's CategoryHeuristic bucket table,
checked in its fixed order with the first match winning. -/
def specCategoryOfAvgHour (a : ℚ) : String :=
  if 6 ≤ a ∧ a ≤ 10 then "work"
  else if 11 ≤ a ∧ a ≤ 14 then "restaurant"
  else if 9 ≤ a ∧ a ≤ 17 then "work"
  else if 17 ≤ a ∧ a ≤ 21 then "restaurant"
  else "home"

/-- Claim C8: the category heuristic takes the arithmetic mean of the member
start hours and buckets it in the fixed order [6,10] to work, [11,14] to
restaurant, [9,17] to work, [17,21] to restaurant, else home; in particular
average hour 8 gives "work", 12 gives "restaurant", 19 gives "restaurant"
and 2 gives "home". -/
theorem c8_category_heuristic (hours : List ℤ) (h : hours ≠ []) :
    suggest_category_from_times hours =
      specCategoryOfAvgHour (((hours.map (fun x => (x : ℚ))).sum) / hours.length) ∧
    suggest_category_from_times [7, 9] = "work" ∧
    suggest_category_from_times [11, 13] = "restaurant" ∧
    suggest_category_from_times [18, 20] = "restaurant" ∧
    suggest_category_from_times [1, 3] = "home" := by
  have gen : ∀ (hs : List ℤ), hs ≠ [] →
      suggest_category_from_times hs =
        specCategoryOfAvgHour (((hs.map (fun x => (x : ℚ))).sum) / hs.length) := by
    intro hs hh
    simp only [suggest_category_from_times, specCategoryOfAvgHour, hh, if_false]
  refine ⟨gen hours h, ?_, ?_, ?_, ?_⟩
  all_goals rw [gen _ (by decide)]
  all_goals norm_num [specCategoryOfAvgHour]

/-- Witness for C8 at the concrete hour list [8]. -/
theorem c8_category_heuristic_witness :
    suggest_category_from_times [8] =
      specCategoryOfAvgHour ((([8] : List ℤ).map (fun x => (x : ℚ))).sum / ([8] : List ℤ).length) :=
  (c8_category_heuristic [8] (by decide)).1

/-- A successful name lookup in the category enum returns the member whose
value is the looked-up string. -/
theorem PlaceCategory.toValue_ofName (s : String) (c : PlaceCategory)
    (h : PlaceCategory.ofName? s = some c) : c.toValue = s := by
  unfold PlaceCategory.ofName? at h
  repeat' split at h
  all_goals simp_all [PlaceCategory.toValue]
  all_goals subst h
  all_goals rfl

/-- Claim C9: confirm_discovered_place succeeds for every category string,
appending exactly one place; a valid category string is stored as given and
a malformed one falls back to "other". -/
theorem c9_confirm_category_fallback (id uid name category : String) (lat lon : ℚ)
    (st : ServiceState) :
    (confirm_discovered_place id uid lat lon name category st).2.places
        = st.places ++ [(confirm_discovered_place id uid lat lon name category st).1] ∧
    (confirm_discovered_place id uid lat lon name category st).1.category
        = (if (PlaceCategory.ofName? category).isSome then category else "other") ∧
    (confirm_discovered_place id uid lat lon name category st).1.is_auto_detected = true ∧
    (confirm_discovered_place id uid lat lon name category st).1.radius_meters = 100 := by
  unfold confirm_discovered_place create_place
  cases hc : PlaceCategory.ofName? category with
  | none => simp [PlaceCategory.toValue]
  | some c => simp [PlaceCategory.toValue_ofName category c hc]

/-- Claim C10: update_place changes exactly the patch fields that are present
with a non-None value; omitted fields and fields explicitly supplied as None
keep their prior values, so no field can be cleared to null, and the fields
outside PlaceUpdate are untouched. -/
theorem c10_update_place_frame (place_id : String) (u : PlaceUpdate) (st : ServiceState)
    (place : PlaceDB) (hfind : st.places.find? (fun p => p.id == place_id) = some place) :
    ∃ p1, (update_place place_id u st).1 = some p1 ∧
      (∀ v, u.name = some (some v) → p1.name = v) ∧
      ((u.name = none ∨ u.name = some none) → p1.name = place.name) ∧
      (∀ v, u.latitude = some (some v) → p1.latitude = v) ∧
      ((u.latitude = none ∨ u.latitude = some none) → p1.latitude = place.latitude) ∧
      (∀ v, u.longitude = some (some v) → p1.longitude = v) ∧
      ((u.longitude = none ∨ u.longitude = some none) → p1.longitude = place.longitude) ∧
      (∀ v, u.radius_meters = some (some v) → p1.radius_meters = v) ∧
      ((u.radius_meters = none ∨ u.radius_meters = some none) → p1.radius_meters = place.radius_meters) ∧
      (∀ v, u.category = some (some v) → p1.category = v.toValue) ∧
      ((u.category = none ∨ u.category = some none) → p1.category = place.category) ∧
      (∀ v, u.address = some (some v) → p1.address = some v) ∧
      ((u.address = none ∨ u.address = some none) → p1.address = place.address) ∧
      (∀ v, u.is_confirmed = some (some v) → p1.is_confirmed = v) ∧
      ((u.is_confirmed = none ∨ u.is_confirmed = some none) → p1.is_confirmed = place.is_confirmed) ∧
      (∀ v, u.metadata_json = some (some v) → p1.metadata_json = some v) ∧
      ((u.metadata_json = none ∨ u.metadata_json = some none) → p1.metadata_json = place.metadata_json) ∧
      p1.id = place.id ∧ p1.uid = place.uid ∧ p1.visit_count = place.visit_count ∧
      p1.total_dwell_time_minutes = place.total_dwell_time_minutes ∧
      p1.first_visited = place.first_visited ∧ p1.last_visited = place.last_visited ∧
      p1.is_auto_detected = place.is_auto_detected := by
  unfold update_place
  rw [hfind]
  refine ⟨_, rfl, ?_, ?_, ?_, ?_, ?_, ?_, ?_, ?_, ?_, ?_, ?_, ?_, ?_, ?_, ?_, ?_,
    rfl, rfl, rfl, rfl, rfl, rfl, rfl⟩
  all_goals first
    | (intro v hv; simp only [hv])
    | (rintro (hv | hv) <;> simp only [hv])

/-- A concrete patch for the C10 witness: name set, latitude explicitly None,
everything else omitted. -/
def updW : PlaceUpdate := { name := some (some "Cafe"), latitude := some none }

/-- A concrete stored place for the C10 witness. -/
def placeW : PlaceDB :=
  { id := "p1", uid := "u", name := "Old", latitude := 7, longitude := 8,
    radius_meters := 100, category := "other", address := none,
    is_auto_detected := false, is_confirmed := false, visit_count := 5,
    total_dwell_time_minutes := 30, first_visited := some 0, last_visited := some 0,
    metadata_json := none }

/-- Witness for C10: the theorem applied to the concrete place and patch. -/
theorem c10_update_place_frame_witness :
    ∃ p1, (update_place "p1" updW { places := [placeW], visits := [] }).1 = some p1 ∧
      (∀ v, updW.name = some (some v) → p1.name = v) ∧
      ((updW.name = none ∨ updW.name = some none) → p1.name = placeW.name) ∧
      (∀ v, updW.latitude = some (some v) → p1.latitude = v) ∧
      ((updW.latitude = none ∨ updW.latitude = some none) → p1.latitude = placeW.latitude) ∧
      (∀ v, updW.longitude = some (some v) → p1.longitude = v) ∧
      ((updW.longitude = none ∨ updW.longitude = some none) → p1.longitude = placeW.longitude) ∧
      (∀ v, updW.radius_meters = some (some v) → p1.radius_meters = v) ∧
      ((updW.radius_meters = none ∨ updW.radius_meters = some none) → p1.radius_meters = placeW.radius_meters) ∧
      (∀ v, updW.category = some (some v) → p1.category = v.toValue) ∧
      ((updW.category = none ∨ updW.category = some none) → p1.category = placeW.category) ∧
      (∀ v, updW.address = some (some v) → p1.address = some v) ∧
      ((updW.address = none ∨ updW.address = some none) → p1.address = placeW.address) ∧
      (∀ v, updW.is_confirmed = some (some v) → p1.is_confirmed = v) ∧
      ((updW.is_confirmed = none ∨ updW.is_confirmed = some none) → p1.is_confirmed = placeW.is_confirmed) ∧
      (∀ v, updW.metadata_json = some (some v) → p1.metadata_json = some v) ∧
      ((updW.metadata_json = none ∨ updW.metadata_json = some none) → p1.metadata_json = placeW.metadata_json) ∧
      p1.id = placeW.id ∧ p1.uid = placeW.uid ∧ p1.visit_count = placeW.visit_count ∧
      p1.total_dwell_time_minutes = placeW.total_dwell_time_minutes ∧
      p1.first_visited = placeW.first_visited ∧ p1.last_visited = placeW.last_visited ∧
      p1.is_auto_detected = placeW.is_auto_detected :=
  c10_update_place_frame "p1" updW { places := [placeW], visits := [] } placeW (by decide)

/-- A place for the re-entry and dwell scenarios ("p", owned by "u",
visited once). -/
def placeP : PlaceDB :=
  { id := "p", uid := "u", name := "P", latitude := 0, longitude := 0,
    radius_meters := 100, category := "other", address := none,
    is_auto_detected := false, is_confirmed := false, visit_count := 1,
    total_dwell_time_minutes := 0, first_visited := some 0, last_visited := some 0,
    metadata_json := none }

/-- An open visit of "u" at "p" entered at time 0 (a Thursday, weekday 3). -/
def openVisitP : PlaceVisitDB :=
  { uid := "u", place_id := "p", entered_at := 0, exited_at := none,
    dwell_minutes := none, day_of_week := 3, is_routine := false }

/-- State with exactly the one open visit of "u" at "p". -/
def stOpen : ServiceState := { places := [placeP], visits := [openVisitP] }

/-- Claim C2 evaluated at its failing input: the owner already has an open
visit at place "p", and record_visit for the same place closes that visit
(lines 207-216 close ALL open visits, not only those at other places, so the
existing_visit query at lines 218-224 can never match), appends a second
Visit row, bumps visit_count from 1 to 2, and returns the new visit entered
at the new time rather than the old open visit. -/
theorem c2_reentry_not_idempotent :
    (record_visit "u" "p" 600 stOpen).2.visits.length = 2 ∧
    (record_visit "u" "p" 600 stOpen).2.visits.map PlaceVisitDB.exited_at = [some 600, none] ∧
    (record_visit "u" "p" 600 stOpen).2.places.map PlaceDB.visit_count = [2] ∧
    (record_visit "u" "p" 600 stOpen).1.map PlaceVisitDB.entered_at = some 600 ∧
    (record_visit "u" "p" 600 stOpen).1 ≠ some openVisitP := by
  decide

/-- Counterexample for claim C3: a visit entered at time 0 and ended at
time 100 (100 seconds = 5/3 minutes) is stored with dwell_minutes = 1,
whereas rounding 5/3 to the nearest whole minute gives 2. -/
theorem c3_dwell_rounding_counterexample :
    ((end_visit "u" "p" 100 stOpen).1.map PlaceVisitDB.dwell_minutes = some (some 1)) ∧
    round ((100 : ℚ) / 60) = 2 ∧ (1 : ℤ) ≠ 2 := by
  refine ⟨by decide, ?_, by decide⟩
  rw [round_eq]
  have h : (100 : ℚ) / 60 + 1 / 2 = 13 / 6 := by norm_num
  rw [h]
  rw [Int.floor_eq_iff]
  constructor <;> norm_num

/-- The visit returned by closeFirstOpen is a member of the input list with
its exit fields filled in. -/
theorem closeFirstOpen_spec (uid place_id : String) (now : ℤ) (vs : List PlaceVisitDB)
    (v : PlaceVisitDB) (h : (closeFirstOpen uid place_id now vs).1 = some v) :
    ∃ w ∈ vs, v = closeRow now w := by
  induction vs with
  | nil => simp [closeFirstOpen] at h
  | cons w ws ih =>
    rw [closeFirstOpen] at h
    by_cases hc : (w.uid == uid && w.place_id == place_id && w.exited_at.isNone) = true
    · rw [if_pos hc] at h
      simp only [Option.some.injEq] at h
      exact ⟨w, List.mem_cons_self w ws, h.symm⟩
    · rw [if_neg hc] at h
      simp only at h
      obtain ⟨x, hx, hxe⟩ := ih h
      exact ⟨x, List.mem_cons_of_mem w hx, hxe⟩

/-- The visit end_visit returns is exactly the one closeFirstOpen found. -/
theorem end_visit_fst (uid place_id : String) (now : ℤ) (st : ServiceState) :
    (end_visit uid place_id now st).1 = (closeFirstOpen uid place_id now st.visits).1 := by
  unfold end_visit
  cases hc : (closeFirstOpen uid place_id now st.visits).1 with
  | none => simp [hc]
  | some v => simp [hc]

/-- Claim C3 amended: the dwell_minutes stored by end_visit is the elapsed
duration in minutes truncated (floor for the non-negative durations of real
histories), not rounded to nearest. -/
theorem c3_dwell_is_floor (uid place_id : String) (now : ℤ) (st : ServiceState)
    (v : PlaceVisitDB) (h : (end_visit uid place_id now st).1 = some v)
    (hpast : ∀ w ∈ st.visits, w.entered_at ≤ now) :
    v.exited_at = some now ∧
    v.dwell_minutes = some ⌊((now - v.entered_at : ℤ) : ℚ) / 60⌋ := by
  rw [end_visit_fst] at h
  obtain ⟨w, hw, rfl⟩ := closeFirstOpen_spec uid place_id now st.visits v h
  refine ⟨rfl, ?_⟩
  simp only [closeRow]
  have hnn : (0 : ℤ) ≤ now - w.entered_at := by
    have := hpast w hw
    omega
  have hfl : ⌊((now - w.entered_at : ℤ) : ℚ) / 60⌋ = (now - w.entered_at) / 60 := by
    have := Rat.floor_intCast_div_natCast (now - w.entered_at) 60
    simpa using this
  simp only [truncMinutes, Option.some.injEq]
  rw [Int.tdiv_eq_ediv hnn (by norm_num)]
  push_cast at hfl ⊢
  exact hfl.symm

/-- The closed visit produced in the 100-second scenario. -/
def closedVisitW : PlaceVisitDB :=
  { uid := "u", place_id := "p", entered_at := 0, exited_at := some 100,
    dwell_minutes := some 1, day_of_week := 3, is_routine := false }

/-- Witness for the amended C3 theorem at the concrete 100-second visit. -/
theorem c3_dwell_is_floor_witness :
    (end_visit "u" "p" 100 stOpen).1 = some closedVisitW ∧
    (∀ w ∈ stOpen.visits, w.entered_at ≤ 100) ∧
    closedVisitW.exited_at = some 100 ∧
    closedVisitW.dwell_minutes = some ⌊((100 - closedVisitW.entered_at : ℤ) : ℚ) / 60⌋ :=
  ⟨by decide, by decide,
    (c3_dwell_is_floor "u" "p" 100 stOpen closedVisitW (by decide) (by decide)).1,
    (c3_dwell_is_floor "u" "p" 100 stOpen closedVisitW (by decide) (by decide)).2⟩

/-- Closing a closed row fails the open-visit test outright. -/
theorem openPred_closeRow (owner : String) (t : ℤ) (v : PlaceVisitDB) :
    openPred owner (closeRow t v) = false := by
  simp [openPred, closeRow]

/-- Closing a visit of the owner makes it fail the open-visit test; visits
that were not open for the owner already failed it. -/
theorem openPred_closeIfOpen_self (owner : String) (t : ℤ) (v : PlaceVisitDB) :
    openPred owner (closeIfOpen owner t v) = false := by
  unfold closeIfOpen
  by_cases h : (v.uid == owner && v.exited_at.isNone) = true
  · rw [if_pos h]
    exact openPred_closeRow owner t v
  · rw [if_neg h]
    exact Bool.eq_false_iff.mpr h

/-- Closing another owner's visits does not change the open-visit test. -/
theorem openPred_closeIfOpen_other (owner u : String) (h : u ≠ owner) (t : ℤ)
    (v : PlaceVisitDB) : openPred owner (closeIfOpen u t v) = openPred owner v := by
  unfold closeIfOpen
  by_cases hc : (v.uid == u && v.exited_at.isNone) = true
  · rw [if_pos hc]
    have h1 : v.uid = u := by
      simp only [Bool.and_eq_true, beq_iff_eq] at hc
      exact hc.1
    simp [openPred, closeRow, h1, h]
  · rw [if_neg hc]

/-- After record_visit's closing loop, the owner has no open visits left. -/
theorem filter_open_closeAll_self (owner : String) (t : ℤ) (vs : List PlaceVisitDB) :
    (closeAllOpen owner t vs).filter (openPred owner) = [] := by
  unfold closeAllOpen
  rw [List.filter_map]
  have hcomp : (openPred owner ∘ closeIfOpen owner t) = fun _ => false := by
    funext v
    simp [Function.comp, openPred_closeIfOpen_self]
  rw [hcomp]
  simp

/-- record_visit's closing loop for one owner leaves another owner's open
visit count unchanged. -/
theorem filter_open_closeAll_other (owner u : String) (h : u ≠ owner) (t : ℤ)
    (vs : List PlaceVisitDB) :
    ((closeAllOpen u t vs).filter (openPred owner)).length
      = (vs.filter (openPred owner)).length := by
  unfold closeAllOpen
  rw [List.filter_map]
  have hcomp : (openPred owner ∘ closeIfOpen u t) = openPred owner := by
    funext v
    simp [Function.comp, openPred_closeIfOpen_other owner u h]
  rw [hcomp, List.length_map]

/-- end_visit's single-row close never increases any owner's open visit
count. -/
theorem filter_open_closeFirst_le (owner u p : String) (t : ℤ) (vs : List PlaceVisitDB) :
    (((closeFirstOpen u p t vs).2).filter (openPred owner)).length
      ≤ (vs.filter (openPred owner)).length := by
  induction vs with
  | nil => simp [closeFirstOpen]
  | cons v vs ih =>
    rw [closeFirstOpen]
    split
    · simp only [List.filter_cons, openPred_closeRow, Bool.false_eq_true, if_false]
      split
      · simp
      · simp
    · simp only [List.filter_cons]
      split
      · simpa using ih
      · exact ih

/-- The visits table after record_visit: untouched when the place is
missing, else the closed table, possibly with one fresh open visit of the
caller appended. -/
theorem record_visit_visits_cases (uid place_id : String) (now : ℤ) (st : ServiceState) :
    (record_visit uid place_id now st).2.visits = st.visits ∨
    (record_visit uid place_id now st).2.visits = closeAllOpen uid now st.visits ∨
    ∃ nv : PlaceVisitDB, nv.uid = uid ∧ nv.exited_at = none ∧
      (record_visit uid place_id now st).2.visits = closeAllOpen uid now st.visits ++ [nv] := by
  cases hp : st.places.find? (fun p => p.id == place_id) with
  | none =>
    left
    simp [record_visit, hp]
  | some place =>
    cases he : (closeAllOpen uid now st.visits).find?
        (fun v => v.uid == uid && v.place_id == place_id && v.exited_at.isNone) with
    | some ev =>
      right; left
      simp [record_visit, hp, he]
    | none =>
      right; right
      refine ⟨newVisit uid place_id now (closeAllOpen uid now st.visits), rfl, rfl, ?_⟩
      simp [record_visit, hp, he]

/-- The visits table after end_visit: untouched or the single-row close. -/
theorem end_visit_visits_cases (uid place_id : String) (now : ℤ) (st : ServiceState) :
    (end_visit uid place_id now st).2.visits = st.visits ∨
    (end_visit uid place_id now st).2.visits = (closeFirstOpen uid place_id now st.visits).2 := by
  unfold end_visit
  cases hc : (closeFirstOpen uid place_id now st.visits).1 with
  | none => left; simp [hc]
  | some v => right; simp [hc]

/-- record_visit preserves the at-most-one-open-visit bound for every owner. -/
theorem record_visit_open_le (owner uid place_id : String) (now : ℤ) (st : ServiceState)
    (h : (openVisitsFor owner st).length ≤ 1) :
    (openVisitsFor owner (record_visit uid place_id now st).2).length ≤ 1 := by
  rcases record_visit_visits_cases uid place_id now st with hv | hv | ⟨nv, hnu, hne, hv⟩
  · unfold openVisitsFor
    rw [hv]
    exact h
  · unfold openVisitsFor
    rw [hv]
    by_cases ho : uid = owner
    · subst ho
      rw [filter_open_closeAll_self]
      simp
    · rw [filter_open_closeAll_other owner uid ho]
      exact h
  · unfold openVisitsFor
    rw [hv, List.filter_append, List.length_append]
    by_cases ho : uid = owner
    · subst ho
      rw [filter_open_closeAll_self]
      simp [openPred, hnu, hne]
    · have hnvo : openPred owner nv = false := by
        simp [openPred, hnu, ho]
      rw [filter_open_closeAll_other owner uid ho]
      simp only [List.filter_cons, hnvo, Bool.false_eq_true, if_false, List.filter_nil,
        List.length_nil]
      simpa using h

/-- end_visit preserves the at-most-one-open-visit bound for every owner. -/
theorem end_visit_open_le (owner uid place_id : String) (now : ℤ) (st : ServiceState)
    (h : (openVisitsFor owner st).length ≤ 1) :
    (openVisitsFor owner (end_visit uid place_id now st).2).length ≤ 1 := by
  rcases end_visit_visits_cases uid place_id now st with hv | hv
  · unfold openVisitsFor
    rw [hv]
    exact h
  · unfold openVisitsFor
    rw [hv]
    exact le_trans (filter_open_closeFirst_le owner uid place_id now st.visits) h

/-- Claim C1: starting from a state where an owner has at most one open
visit, any sequence of record_visit and end_visit signals leaves that owner
with at most one Visit whose exited_at is null. -/
theorem c1_at_most_one_open_visit (owner : String) (ops : List SignalOp) (st : ServiceState)
    (h : (openVisitsFor owner st).length ≤ 1) :
    (openVisitsFor owner (applyOps st ops)).length ≤ 1 := by
  induction ops generalizing st with
  | nil => exact h
  | cons op ops ih =>
    have hstep : (openVisitsFor owner (applyOp st op)).length ≤ 1 := by
      cases op with
      | record uid place_id now => exact record_visit_open_le owner uid place_id now st h
      | finish uid place_id now => exact end_visit_open_le owner uid place_id now st h
    exact ih (applyOp st op) hstep

/-- Witness for C1: a record followed by an end signal on the concrete
one-open-visit state. -/
theorem c1_at_most_one_open_visit_witness :
    (openVisitsFor "u" stOpen).length ≤ 1 ∧
    (openVisitsFor "u"
        (applyOps stOpen [SignalOp.record "u" "p" 600, SignalOp.finish "u" "p" 1200])).length ≤ 1 :=
  ⟨by decide,
    c1_at_most_one_open_visit "u" [SignalOp.record "u" "p" 600, SignalOp.finish "u" "p" 1200]
      stOpen (by decide)⟩

/-- closeIfOpen keeps the uid field. -/
theorem closeIfOpen_uid (uid : String) (t : ℤ) (v : PlaceVisitDB) :
    (closeIfOpen uid t v).uid = v.uid := by
  unfold closeIfOpen
  split
  · simp [closeRow]
  · rfl

/-- closeIfOpen keeps the place_id field. -/
theorem closeIfOpen_place_id (uid : String) (t : ℤ) (v : PlaceVisitDB) :
    (closeIfOpen uid t v).place_id = v.place_id := by
  unfold closeIfOpen
  split
  · simp [closeRow]
  · rfl

/-- closeIfOpen keeps the day_of_week field. -/
theorem closeIfOpen_day_of_week (uid : String) (t : ℤ) (v : PlaceVisitDB) :
    (closeIfOpen uid t v).day_of_week = v.day_of_week := by
  unfold closeIfOpen
  split
  · simp [closeRow]
  · rfl

/-- closeIfOpen keeps the entered_at field. -/
theorem closeIfOpen_entered_at (uid : String) (t : ℤ) (v : PlaceVisitDB) :
    (closeIfOpen uid t v).entered_at = v.entered_at := by
  unfold closeIfOpen
  split
  · simp [closeRow]
  · rfl

/-- After record_visit's closing loop, the existing-open-visit query can
never match: the idempotent re-entry branch is dead code. -/
theorem find_open_closeAll (uid place_id : String) (now : ℤ) (vs : List PlaceVisitDB) :
    (closeAllOpen uid now vs).find?
      (fun v => v.uid == uid && v.place_id == place_id && v.exited_at.isNone) = none := by
  rw [List.find?_eq_none]
  intro x hx
  rw [closeAllOpen] at hx
  obtain ⟨w, hw, rfl⟩ := List.mem_map.mp hx
  unfold closeIfOpen
  by_cases h : (w.uid == uid && w.exited_at.isNone) = true
  · rw [if_pos h]
    simp [closeRow]
  · rw [if_neg h]
    simp only [Bool.and_eq_true, beq_iff_eq, Option.isNone_iff_eq_none] at h ⊢
    tauto

/-- The routine query reads fields that record_visit's closing loop does not
touch, so running it on the closed table equals running it on the original
table. -/
theorem is_routine_visit_closeAll (uid place_id : String) (now t : ℤ)
    (vs : List PlaceVisitDB) :
    is_routine_visit (closeAllOpen uid t vs) uid place_id now
      = is_routine_visit vs uid place_id now := by
  have hp : ((fun v => v.uid == uid && v.place_id == place_id &&
        v.day_of_week == weekdayOf now && decide (now - 14 * 86400 ≤ v.entered_at))
          ∘ closeIfOpen uid t)
      = (fun v => v.uid == uid && v.place_id == place_id &&
        v.day_of_week == weekdayOf now && decide (now - 14 * 86400 ≤ v.entered_at)) := by
    funext v
    simp [Function.comp, closeIfOpen_uid, closeIfOpen_place_id, closeIfOpen_day_of_week,
      closeIfOpen_entered_at]
  have hq : ((fun v => decide (|hourOf v.entered_at - hourOf now| ≤ 2)) ∘ closeIfOpen uid t)
      = (fun v => decide (|hourOf v.entered_at - hourOf now| ≤ 2)) := by
    funext v
    simp [Function.comp, closeIfOpen_entered_at]
  simp only [is_routine_visit, closeAllOpen]
  rw [List.filter_map, hp, List.length_map, List.any_map, hq]

/-- Modelled from the spec claim: the owner's visits to the same place with
the same day_of_week whose entered_at lies within the preceding 14 days. -/
def claimSimilarVisits (st : ServiceState) (uid place_id : String) (now : ℤ) :
    List PlaceVisitDB :=
  st.visits.filter (fun w => w.uid == uid && w.place_id == place_id &&
    w.day_of_week == weekdayOf now &&
    (decide (now - 14 * 86400 ≤ w.entered_at) && decide (w.entered_at ≤ now)))

/-- Claim C7: record_visit creates its new Visit with is_routine = true
exactly when the owner has at least two visits to the same place on the same
day of week within the preceding 14 days, at least one of which entered
within plain absolute difference of 2 hours of the current hour. -/
theorem c7_routine_flag (uid place_id : String) (now : ℤ) (st : ServiceState)
    (place : PlaceDB) (hp : st.places.find? (fun p => p.id == place_id) = some place)
    (hpast : ∀ w ∈ st.visits, w.entered_at ≤ now) :
    ∃ v, (record_visit uid place_id now st).1 = some v ∧ v.entered_at = now ∧
      (v.is_routine = true ↔
        2 ≤ (claimSimilarVisits st uid place_id now).length ∧
          ∃ w ∈ claimSimilarVisits st uid place_id now,
            |hourOf w.entered_at - hourOf now| ≤ 2) := by
  refine ⟨newVisit uid place_id now (closeAllOpen uid now st.visits), ?_, rfl, ?_⟩
  · simp [record_visit, hp, find_open_closeAll]
  · show is_routine_visit (closeAllOpen uid now st.visits) uid place_id now = true ↔ _
    rw [is_routine_visit_closeAll]
    have hfeq : st.visits.filter (fun v => v.uid == uid && v.place_id == place_id &&
          v.day_of_week == weekdayOf now && decide (now - 14 * 86400 ≤ v.entered_at))
        = claimSimilarVisits st uid place_id now := by
      unfold claimSimilarVisits
      apply List.filter_congr
      intro x hx
      have hb : decide (x.entered_at ≤ now) = true := by
        simpa using hpast x hx
      rw [hb]
      simp
    simp only [is_routine_visit, hfeq]
    by_cases hlen : (claimSimilarVisits st uid place_id now).length < 2
    · have h2 : ¬(2 ≤ (claimSimilarVisits st uid place_id now).length) := by omega
      simp [hlen, h2]
    · have h2 : 2 ≤ (claimSimilarVisits st uid place_id now).length := by omega
      simp [hlen, h2, List.any_eq_true]

/-- A closed Wednesday-morning visit two Wednesdays back (1970-01-07 09:30). -/
def wedVisit1 : PlaceVisitDB :=
  { uid := "u", place_id := "p", entered_at := 552600, exited_at := some 556200,
    dwell_minutes := some 60, day_of_week := 2, is_routine := false }

/-- A closed Wednesday-morning visit one Wednesday back (1970-01-14 08:30). -/
def wedVisit2 : PlaceVisitDB :=
  { uid := "u", place_id := "p", entered_at := 1153800, exited_at := some 1157400,
    dwell_minutes := some 60, day_of_week := 2, is_routine := false }

/-- State with the two prior Wednesday visits. -/
def stWed : ServiceState := { places := [placeP], visits := [wedVisit1, wedVisit2] }

/-- Witness for C7: a visit on the following Wednesday at 09:00
(timestamp 1760400) against the two prior Wednesday-morning visits. -/
theorem c7_routine_flag_witness :
    (stWed.places.find? (fun p => p.id == "p") = some placeP) ∧
    (∀ w ∈ stWed.visits, w.entered_at ≤ 1760400) ∧
    ∃ v, (record_visit "u" "p" 1760400 stWed).1 = some v ∧ v.entered_at = 1760400 ∧
      (v.is_routine = true ↔
        2 ≤ (claimSimilarVisits stWed "u" "p" 1760400).length ∧
          ∃ w ∈ claimSimilarVisits stWed "u" "p" 1760400,
            |hourOf w.entered_at - hourOf 1760400| ≤ 2) :=
  ⟨by decide, by decide,
    c7_routine_flag "u" "p" 1760400 stWed placeP (by decide) (by decide)⟩

/-- roundHalfEven never undershoots an integer lower bound of its argument. -/
theorem roundHalfEven_ge (n : ℤ) (q : ℚ) (h : (n : ℚ) ≤ q) : n ≤ roundHalfEven q := by
  have hf : n ≤ ⌊q⌋ := Int.le_floor.mpr h
  unfold roundHalfEven
  split_ifs <;> omega

/-- When the fractional part is at least one half, the floor is strictly
below any integer upper bound. -/
theorem floor_succ_le_of_half (n : ℤ) (q : ℚ) (h : q ≤ (n : ℚ))
    (h1 : ¬(q - ⌊q⌋ < 1 / 2)) : ⌊q⌋ + 1 ≤ n := by
  have hf : ⌊q⌋ ≤ n := by
    have := Int.floor_le_floor h
    simpa using this
  rcases lt_or_eq_of_le hf with hlt | heq
  · omega
  · exfalso
    have hq2 : (⌊q⌋ : ℚ) ≤ q := Int.floor_le q
    have hq1 : q ≤ (⌊q⌋ : ℚ) := by rw [heq]; exact h
    have hz : q - ⌊q⌋ = 0 := by linarith
    rw [hz] at h1
    norm_num at h1

/-- roundHalfEven never overshoots an integer upper bound of its argument. -/
theorem roundHalfEven_le (n : ℤ) (q : ℚ) (h : q ≤ (n : ℚ)) : roundHalfEven q ≤ n := by
  have hf : ⌊q⌋ ≤ n := by
    have := Int.floor_le_floor h
    simpa using this
  unfold roundHalfEven
  split_ifs with h1 h2 h3
  · exact hf
  · exact floor_succ_le_of_half n q h h1
  · exact hf
  · exact floor_succ_le_of_half n q h h1

/-- Rounding to two decimals keeps a value of [0, 1] inside [0, 1]. -/
theorem round2_bounds (q : ℚ) (h0 : 0 ≤ q) (h1 : q ≤ 1) :
    0 ≤ round2 q ∧ round2 q ≤ 1 := by
  unfold round2
  constructor
  · apply div_nonneg _ (by norm_num)
    have hge : (0 : ℤ) ≤ roundHalfEven (q * 100) := by
      apply roundHalfEven_ge
      push_cast
      nlinarith
    exact_mod_cast hge
  · rw [div_le_one (by norm_num)]
    have hle : roundHalfEven (q * 100) ≤ (100 : ℤ) := by
      apply roundHalfEven_le
      push_cast
      nlinarith
    exact_mod_cast hle

/-- Claim C4 amended: whenever days_back is at least 7, get_routines
completes and every emitted routine has confidence in [0, 1]. -/
theorem c4_routines_confidence (st : ServiceState) (uid : String) (days_back : ℕ) (now : ℤ)
    (h : 7 ≤ days_back) :
    ∃ rs, get_routines st uid days_back now = some rs ∧
      ∀ r ∈ rs, 0 ≤ r.confidence ∧ r.confidence ≤ 1 := by
  have hw : days_back / 7 ≠ 0 := by
    have h1 : 1 ≤ days_back / 7 := (Nat.one_le_div_iff (by norm_num)).mpr h
    omega
  simp only [get_routines]
  rw [if_neg (fun hc => hw hc.1)]
  refine ⟨_, rfl, ?_⟩
  intro r hr
  rw [sortRoutines, List.mem_insertionSort] at hr
  obtain ⟨c, hc, rfl⟩ := List.mem_map.mp hr
  have h0 : (0 : ℚ) ≤ min ((c.2 : ℚ) / ((days_back / 7 : ℕ) : ℚ)) 1 := by
    apply le_min _ (by norm_num)
    apply div_nonneg <;> positivity
  have h1 : min ((c.2 : ℚ) / ((days_back / 7 : ℕ) : ℚ)) 1 ≤ 1 := min_le_right _ _
  exact round2_bounds _ h0 h1

/-- Witness for the amended C4 theorem on an empty history with the default
28-day window. -/
theorem c4_routines_confidence_witness :
    (7 ≤ 28) ∧ ∃ rs, get_routines { places := [], visits := [] } "u" 28 0 = some rs ∧
      ∀ r ∈ rs, 0 ≤ r.confidence ∧ r.confidence ≤ 1 :=
  ⟨by decide, c4_routines_confidence { places := [], visits := [] } "u" 28 0 (by decide)⟩

/-- Two visits at place "p" in the same hour cell, used to reach the
confidence computation. -/
def visitR1 : PlaceVisitDB :=
  { uid := "u", place_id := "p", entered_at := 0, exited_at := some 60,
    dwell_minutes := some 1, day_of_week := 3, is_routine := false }

/-- Second visit in the same (place, day, hour) cell. -/
def visitR2 : PlaceVisitDB :=
  { uid := "u", place_id := "p", entered_at := 120, exited_at := some 180,
    dwell_minutes := some 1, day_of_week := 3, is_routine := false }

/-- History with one eligible routine cell. -/
def stRoutines : ServiceState := { places := [placeP], visits := [visitR1, visitR2] }

/-- Counterexample for claim C4: with days_back = 3 (which the claim's
"every days_back ≥ 1" includes) and an eligible cell of two visits,
`weeks = 3 // 7 = 0` and `count / weeks` raises ZeroDivisionError, so the
call does not complete. -/
theorem c4_routines_counterexample : get_routines stRoutines "u" 3 86400 = none := by
  decide

/-- Timestamp of the last fix of a run, seeded with the current session end. -/
def lastTime (t : ℤ) : List LocationFix → ℤ
  | [] => t
  | f :: fs => lastTime f.timestamp fs

/-- Modelled from the spec claim: a chronological run of fixes in which each
next fix is within 30 minutes (1800 seconds) of the session's last fix time
and within 500 meters of the running centroid of all points accumulated so
far. -/
def coherentRun (d : DistFn) (pts : List (ℚ × ℚ)) (lastT : ℤ) : List LocationFix → Bool
  | [] => true
  | f :: fs =>
    decide (f.timestamp - lastT ≤ 30 * 60) &&
    decide (d f.latitude f.longitude (centroidLat pts) (centroidLon pts) ≤ 500) &&
    coherentRun d (pts ++ [(f.latitude, f.longitude)]) f.timestamp fs

/-- Over a coherent run of fixes away from every known place, the
segmentation fold only extends the current session. -/
theorem dwell_foldl_coherent (d : DistFn) (places : List PlaceDB) :
    ∀ (fs : List LocationFix) (done : List DwellSession) (s : DwellSession),
      (∀ f ∈ fs, nearExistingPlace d places f = false) →
      coherentRun d s.points s.end_time fs = true →
      fs.foldl (dwellStep d places) (done, some s) =
        (done, some { points := s.points ++ fs.map (fun f => (f.latitude, f.longitude)),
                      start_time := s.start_time, end_time := lastTime s.end_time fs }) := by
  intro fs
  induction fs with
  | nil =>
    intro done s hne hco
    simp [lastTime]
  | cons f fs ih =>
    intro done s hne hco
    rw [List.foldl_cons]
    have hnef : nearExistingPlace d places f = false := hne f (List.mem_cons_self f fs)
    rw [coherentRun] at hco
    simp only [Bool.and_eq_true, decide_eq_true_eq] at hco
    obtain ⟨⟨htime, hdist⟩, hco2⟩ := hco
    have hstep : dwellStep d places (done, some s) f =
        (done, some { points := s.points ++ [(f.latitude, f.longitude)],
                      start_time := s.start_time, end_time := f.timestamp }) := by
      unfold dwellStep
      rw [hnef]
      simp only [Bool.false_eq_true, if_false]
      have hcond : ¬(((f.timestamp - s.end_time : ℤ) : ℚ) / 60 > session_gap_minutes ∨
          d f.latitude f.longitude (centroidLat s.points) (centroidLon s.points)
            > session_gap_meters) := by
        push_neg
        constructor
        · unfold session_gap_minutes
          rw [div_le_iff₀ (by norm_num : (0 : ℚ) < 60)]
          have : ((f.timestamp - s.end_time : ℤ) : ℚ) ≤ ((30 * 60 : ℤ) : ℚ) := by
            exact_mod_cast htime
          calc ((f.timestamp - s.end_time : ℤ) : ℚ) ≤ ((30 * 60 : ℤ) : ℚ) := this
            _ = 30 * 60 := by norm_num
        · unfold session_gap_meters
          exact hdist
      rw [if_neg hcond]
    rw [hstep]
    rw [ih done _ (fun x hx => hne x (List.mem_cons_of_mem f hx)) hco2]
    simp [lastTime, List.append_assoc]

/-- Claim C5: in the dwell-segmentation pass, a coherent run of fixes away
from every known place yields exactly one session holding all its points,
and a 40-minute gap between two such runs splits the stream into exactly two
sessions. -/
theorem c5_dwell_segmentation (d : DistFn) (places : List PlaceDB)
    (f : LocationFix) (fs : List LocationFix) (g : LocationFix) (gs : List LocationFix)
    (hne1 : ∀ x ∈ f :: fs, nearExistingPlace d places x = false)
    (hco1 : coherentRun d [(f.latitude, f.longitude)] f.timestamp fs = true)
    (hne2 : ∀ x ∈ g :: gs, nearExistingPlace d places x = false)
    (hco2 : coherentRun d [(g.latitude, g.longitude)] g.timestamp gs = true)
    (hgap : g.timestamp - lastTime f.timestamp fs = 40 * 60) :
    dwellSegment d places (f :: fs) =
      [{ points := (f.latitude, f.longitude) :: fs.map (fun x => (x.latitude, x.longitude)),
         start_time := f.timestamp, end_time := lastTime f.timestamp fs }] ∧
    dwellSegment d places ((f :: fs) ++ g :: gs) =
      [{ points := (f.latitude, f.longitude) :: fs.map (fun x => (x.latitude, x.longitude)),
         start_time := f.timestamp, end_time := lastTime f.timestamp fs },
       { points := (g.latitude, g.longitude) :: gs.map (fun x => (x.latitude, x.longitude)),
         start_time := g.timestamp, end_time := lastTime g.timestamp gs }] := by
  have hnef : nearExistingPlace d places f = false := hne1 f (List.mem_cons_self f fs)
  have hneg : nearExistingPlace d places g = false := hne2 g (List.mem_cons_self g gs)
  have hfirst : dwellStep d places ([], none) f =
      ([], some { points := [(f.latitude, f.longitude)],
                  start_time := f.timestamp, end_time := f.timestamp }) := by
    unfold dwellStep
    rw [hnef]
    simp
  have hA : (f :: fs).foldl (dwellStep d places) ([], none) =
      ([], some { points := (f.latitude, f.longitude) :: fs.map (fun x => (x.latitude, x.longitude)),
                  start_time := f.timestamp, end_time := lastTime f.timestamp fs }) := by
    rw [List.foldl_cons, hfirst]
    rw [dwell_foldl_coherent d places fs [] _ (fun x hx => hne1 x (List.mem_cons_of_mem f hx)) hco1]
    simp
  constructor
  · unfold dwellSegment
    rw [hA]
    simp
  · have hgapstep : dwellStep d places
        ([], some { points := (f.latitude, f.longitude) :: fs.map (fun x => (x.latitude, x.longitude)),
                    start_time := f.timestamp, end_time := lastTime f.timestamp fs }) g =
        ([{ points := (f.latitude, f.longitude) :: fs.map (fun x => (x.latitude, x.longitude)),
            start_time := f.timestamp, end_time := lastTime f.timestamp fs }],
         some { points := [(g.latitude, g.longitude)],
                start_time := g.timestamp, end_time := g.timestamp }) := by
      unfold dwellStep
      rw [hneg]
      simp only [Bool.false_eq_true, if_false]
      rw [if_pos]
      · simp
      · left
        unfold session_gap_minutes
        rw [gt_iff_lt, lt_div_iff₀ (by norm_num : (0 : ℚ) < 60)]
        have he : (g.timestamp - lastTime f.timestamp fs : ℤ) = 40 * 60 := hgap
        rw [he]
        norm_num
    unfold dwellSegment
    rw [List.foldl_append, hA, List.foldl_cons, hgapstep]
    rw [dwell_foldl_coherent d places gs _ _ (fun x hx => hne2 x (List.mem_cons_of_mem g hx)) hco2]
    simp

/-- The constant-zero distance function used by the discovery witnesses. -/
def d0 : DistFn := fun _ _ _ _ => 0

/-- First fix of the witness run (t = 0). -/
def fix0 : LocationFix := { latitude := 0, longitude := 0, timestamp := 0, speed := 0 }

/-- Four more fixes at 10-minute spacing. -/
def fixRun : List LocationFix :=
  [{ latitude := 0, longitude := 0, timestamp := 600, speed := 0 },
   { latitude := 0, longitude := 0, timestamp := 1200, speed := 0 },
   { latitude := 0, longitude := 0, timestamp := 1800, speed := 0 },
   { latitude := 0, longitude := 0, timestamp := 2400, speed := 0 }]

/-- A fix arriving 40 minutes after the run's last fix. -/
def fixGap : LocationFix := { latitude := 0, longitude := 0, timestamp := 4800, speed := 0 }

/-- Witness for C5: five fixes at 10-minute spacing form one session, and
the 40-minute-late sixth fix starts a second one. -/
theorem c5_dwell_segmentation_witness :
    dwellSegment d0 [] (fix0 :: fixRun) =
      [{ points := (fix0.latitude, fix0.longitude)
            :: fixRun.map (fun x => (x.latitude, x.longitude)),
         start_time := fix0.timestamp, end_time := lastTime fix0.timestamp fixRun }] ∧
    dwellSegment d0 [] ((fix0 :: fixRun) ++ fixGap :: []) =
      [{ points := (fix0.latitude, fix0.longitude)
            :: fixRun.map (fun x => (x.latitude, x.longitude)),
         start_time := fix0.timestamp, end_time := lastTime fix0.timestamp fixRun },
       { points := (fixGap.latitude, fixGap.longitude)
            :: ([] : List LocationFix).map (fun x => (x.latitude, x.longitude)),
         start_time := fixGap.timestamp, end_time := lastTime fixGap.timestamp [] }] :=
  c5_dwell_segmentation d0 [] fix0 fixRun fixGap []
    (by decide) (by decide) (by decide) (by decide) (by decide)

/-- One outer clustering step only ever appends suggestions that passed the
min_visits guard, whose visit_count is the number of member sessions. -/
theorem clusterStep_min_visits (d : DistFn) (radius : ℚ) (m : ℕ)
    (sessionsIdx : List (ℕ × DwellSession)) (st : List ℕ × List PlaceSuggestion)
    (is : ℕ × DwellSession) (h : ∀ c ∈ st.2, m ≤ c.visit_count) :
    ∀ c ∈ (clusterStep d radius m sessionsIdx st is).2, m ≤ c.visit_count := by
  unfold clusterStep
  split
  · exact h
  · dsimp only
    split
    next hm =>
      intro c hc
      rcases List.mem_append.mp hc with hold | hnew
      · exact h c hold
      · rw [List.mem_singleton] at hnew
        subst hnew
        exact hm
    next => exact h

/-- Every suggestion returned by the clustering pass has
visit_count ≥ min_visits. -/
theorem clusterPass_min_visits (d : DistFn) (radius : ℚ) (m : ℕ)
    (sessions : List DwellSession) :
    ∀ c ∈ clusterPass d radius m sessions, m ≤ c.visit_count := by
  intro c hc
  unfold clusterPass at hc
  have hc1 : c ∈ sortClusters (sessions.enum.foldl
      (clusterStep d radius m sessions.enum) ([], [])).2 :=
    List.take_subset 10 _ hc
  rw [sortClusters, List.mem_insertionSort] at hc1
  have hfold : ∀ (l : List (ℕ × DwellSession)) (st : List ℕ × List PlaceSuggestion),
      (∀ x ∈ st.2, m ≤ x.visit_count) →
      ∀ x ∈ (l.foldl (clusterStep d radius m sessions.enum) st).2, m ≤ x.visit_count := by
    intro l
    induction l with
    | nil =>
      intro st h
      exact h
    | cons y ys ih =>
      intro st h
      rw [List.foldl_cons]
      exact ih _ (clusterStep_min_visits d radius m sessions.enum st y h)
  exact hfold sessions.enum ([], []) (by simp) c hc1

/-- Claim C6: three dwell sessions whose centroids all lie within 100 meters
of each other form exactly one cluster whose visit_count counts sessions
(3), kept when min_visits = 3 and filtered out when min_visits = 4; and in
general every returned suggestion satisfies the min_visits bound. -/
theorem c6_cluster_pass (d : DistFn) (s1 s2 s3 : DwellSession)
    (h12 : d (sessionCentroid s1).1 (sessionCentroid s1).2
             (sessionCentroid s2).1 (sessionCentroid s2).2 ≤ 100)
    (h13 : d (sessionCentroid s1).1 (sessionCentroid s1).2
             (sessionCentroid s3).1 (sessionCentroid s3).2 ≤ 100)
    (h23 : d (sessionCentroid s2).1 (sessionCentroid s2).2
             (sessionCentroid s3).1 (sessionCentroid s3).2 ≤ 100) :
    (clusterPass d 100 3 [s1, s2, s3]).map PlaceSuggestion.visit_count = [3] ∧
    clusterPass d 100 4 [s1, s2, s3] = [] ∧
    (∀ (r : ℚ) (m : ℕ) (ss : List DwellSession) c,
      c ∈ clusterPass d r m ss → m ≤ c.visit_count) := by
  have henum : ([s1, s2, s3] : List DwellSession).enum = [(0, s1), (1, s2), (2, s3)] := rfl
  have hg : gatherCluster d 100 (sessionCentroid s1) [(0, s1), (1, s2), (2, s3)] [0]
      = ([s2, s3], [0, 1, 2]) := by
    simp +decide [gatherCluster, h12, h13]
  refine ⟨?_, ?_, fun r m ss c hc => clusterPass_min_visits d r m ss c hc⟩
  · unfold clusterPass
    rw [henum]
    simp only [List.foldl_cons, List.foldl_nil]
    rw [show clusterStep d 100 3 [(0, s1), (1, s2), (2, s3)] ([], []) (0, s1)
        = ([0, 1, 2],
           [{ latitude := round6 (((([s1, s2, s3].map sessionCentroid).map Prod.fst).sum) / 3),
              longitude := round6 (((([s1, s2, s3].map sessionCentroid).map Prod.snd).sum) / 3),
              visit_count := 3,
              suggested_category := suggest_category_from_times
                ([s1, s2, s3].map (fun s => hourOf s.start_time)),
              first_seen := minStart [s1, s2, s3],
              last_seen := maxEnd [s1, s2, s3] }]) from by
      simp +decide [clusterStep, hg]]
    simp +decide [clusterStep, sortClusters, List.insertionSort]
  · unfold clusterPass
    rw [henum]
    simp only [List.foldl_cons, List.foldl_nil]
    rw [show clusterStep d 100 4 [(0, s1), (1, s2), (2, s3)] ([], []) (0, s1)
        = ([0, 1, 2], []) from by simp +decide [clusterStep, hg]]
    simp +decide [clusterStep, sortClusters, List.insertionSort]

/-- First witness session for the clustering claim. -/
def sessW1 : DwellSession := { points := [(0, 0)], start_time := 0, end_time := 600 }

/-- Second witness session. -/
def sessW2 : DwellSession := { points := [(0, 0)], start_time := 7200, end_time := 7800 }

/-- Third witness session. -/
def sessW3 : DwellSession := { points := [(0, 0)], start_time := 14400, end_time := 15000 }

/-- Witness for C6 at three concrete co-located sessions. -/
theorem c6_cluster_pass_witness :
    (clusterPass d0 100 3 [sessW1, sessW2, sessW3]).map PlaceSuggestion.visit_count = [3] ∧
    clusterPass d0 100 4 [sessW1, sessW2, sessW3] = [] ∧
    (∀ (r : ℚ) (m : ℕ) (ss : List DwellSession) c,
      c ∈ clusterPass d0 r m ss → m ≤ c.visit_count) :=
  c6_cluster_pass d0 sessW1 sessW2 sessW3 (by decide) (by decide) (by decide)
